import Mathlib

/-!
Verification of the oxigraph wikibase server core against its design notes.

The development shallowly embeds:
* the RDF text escape codec of `src/utils.rs` (`Escaper::escape`, `EscapeRDF`);
* the IRI identifier type of `lib/src/model/named_node.rs` (`NamedNode`);
* the SPARQL protocol layer of `wikibase/src/main.rs` (`handle_request`,
  `configure_and_evaluate_sparql_query`, `evaluate_sparql_query`,
  `content_negotiation`, the `http_server::accept` response construction).

Strings are modelled as Lean `String`/`List Char` (the Rust code iterates
over `char`s, so a character list is the faithful unit of work).
-/

namespace Oxigraph

/-! ## Text escape codec (`src/utils.rs`) -/

/-- State of the `EscapeRDF` iterator (`enum EscapeRdfState` in `src/utils.rs`).
The Rust struct `EscapeRDF` is a single-field wrapper around this state. -/
inductive EscapeRdfState where
  | Done : EscapeRdfState
  | Chr : Char → EscapeRdfState
  | Backslash : Char → EscapeRdfState
deriving Repr, DecidableEq

/-- `EscapeRDF::new` from `src/utils.rs`: classifies one character. -/
def EscapeRDF.new (c : Char) : EscapeRdfState :=
  if c = '\t' then .Backslash 't'
  else if c = '\x08' then .Backslash 'b'
  else if c = '\n' then .Backslash 'n'
  else if c = '\r' then .Backslash 'r'
  else if c = '\x0C' then .Backslash 'f'
  else if c = '\\' then .Backslash c
  else if c = '\x27' then .Backslash c
  else if c = '\x22' then .Backslash c
  else .Chr c

/-- One step of `impl Iterator for EscapeRDF::next`: emitted character (if any)
and successor state. -/
def EscapeRdfState.next : EscapeRdfState → Option Char × EscapeRdfState
  | .Backslash c => (some '\\', .Chr c)
  | .Chr c => (some c, .Done)
  | .Done => (none, .Done)

/-- `impl ExactSizeIterator for EscapeRDF::len`. -/
def EscapeRdfState.len : EscapeRdfState → Nat
  | .Done => 0
  | .Chr _ => 1
  | .Backslash _ => 2

/-- Complete output of the `EscapeRDF` iterator run to exhaustion from a state. -/
def EscapeRdfState.emit : EscapeRdfState → List Char
  | .Done => []
  | .Chr c => [c]
  | .Backslash c => ['\\', c]

/-- `emit` is exactly the unfolding of the iterator `next` function. -/
theorem EscapeRdfState.emit_eq_next (s : EscapeRdfState) :
    s.emit = (match s.next with
      | (some c, s1) => c :: s1.emit
      | (none, _) => []) := by
  cases s <;> rfl

/-- `emit` has the length promised by the `ExactSizeIterator` implementation. -/
theorem EscapeRdfState.length_emit (s : EscapeRdfState) : s.emit.length = s.len := by
  cases s <;> rfl

/-- The characters escaped by the codec: tab, backspace, newline, carriage
return, form feed, backslash, single quote, double quote. -/
def escapedChars : List Char := ['\t', '\x08', '\n', '\r', '\x0C', '\\', '\x27', '\x22']

/-- Escape sequence emitted for one character: `EscapeRDF::new(c)` run to
exhaustion (this is what `flat_map(EscapeRDF::new)` contributes for `c`). -/
def escapeChar (c : Char) : List Char := (EscapeRDF.new c).emit

/-- `Escaper::escape` on a character list:
`self.chars().flat_map(|c| EscapeRDF::new(c)).collect()`. -/
def escape (s : List Char) : List Char := s.flatMap escapeChar

/-- `Escaper::escape` at the `String` interface of `src/utils.rs`. -/
def Escaper.escape (s : String) : String := String.mk (Oxigraph.escape s.data)

theorem escapeChar_of_not_escaped (c : Char) (h : c ∉ escapedChars) :
    escapeChar c = [c] := by
  simp only [escapedChars, List.mem_cons, List.not_mem_nil, or_false, not_or] at h
  obtain ⟨h1, h2, h3, h4, h5, h6, h7, h8⟩ := h
  simp [escapeChar, EscapeRDF.new, EscapeRdfState.emit, h1, h2, h3, h4, h5, h6, h7, h8]

theorem escape_append (s t : List Char) : escape (s ++ t) = escape s ++ escape t := by
  simp [escape]

theorem escape_of_not_escaped (s : List Char) (h : ∀ c ∈ s, c ∉ escapedChars) :
    escape s = s := by
  induction s with
  | nil => rfl
  | cons c s ih =>
    have hc : escapeChar c = [c] := escapeChar_of_not_escaped c (h c (by simp))
    have hs : escape s = s := ih (fun d hd => h d (by simp [hd]))
    simp only [escape, List.flatMap_cons] at hs ⊢
    simp [hc, hs]

/-- Decoding of one escape code character (the character written after the
backslash) back to the original character. Used only to prove that the escape
transform is injective; the repository provides no decoder. -/
def unescapeCode (e : Char) : Char :=
  if e = 't' then '\t'
  else if e = 'b' then '\x08'
  else if e = 'n' then '\n'
  else if e = 'r' then '\r'
  else if e = 'f' then '\x0C'
  else e

/-- Left inverse of `escape`: a backslash always starts a two-character escape
sequence, anything else stands for itself. -/
def unescape : List Char → List Char
  | [] => []
  | [c] => [c]
  | c :: e :: rest =>
    if c = '\\' then unescapeCode e :: unescape rest
    else c :: unescape (e :: rest)

theorem unescape_cons_of_ne (c : Char) (l : List Char) (h : c ≠ '\\') :
    unescape (c :: l) = c :: unescape l := by
  cases l with
  | nil => rfl
  | cons e rest => simp [unescape, h]

theorem unescape_escape (s : List Char) : unescape (escape s) = s := by
  induction s with
  | nil => rfl
  | cons c s ih =>
    have hstep : escape (c :: s) = escapeChar c ++ escape s := by
      simp [escape]
    by_cases hc : c ∈ escapedChars
    · have : ∃ e, escapeChar c = ['\\', e] ∧ unescapeCode e = c := by
        fin_cases hc <;> exact ⟨_, rfl, rfl⟩
      obtain ⟨e, he, hd⟩ := this
      rw [hstep, he]
      simp only [List.cons_append, List.nil_append]
      rw [unescape, if_pos rfl, hd, ih]
    · have he : escapeChar c = [c] := escapeChar_of_not_escaped c hc
      have hne : c ≠ '\\' := by
        intro hcc
        exact hc (by simp [escapedChars, hcc])
      rw [hstep, he]
      simp only [List.cons_append, List.nil_append]
      rw [unescape_cons_of_ne c _ hne, ih]

/-- Claim C3: `escape` replaces each of tab, backspace, newline, carriage
return, form feed, backslash, single quote and double quote by its
two-character backslash-escape sequence, passes every other character through
unchanged, preserves character order (it is a homomorphism for concatenation),
and is the identity on strings containing none of the eight characters. -/
theorem escape_replaces_escaped_chars_and_fixes_rest :
    (escapeChar '\t' = ['\\', 't'] ∧ escapeChar '\x08' = ['\\', 'b'] ∧
      escapeChar '\n' = ['\\', 'n'] ∧ escapeChar '\r' = ['\\', 'r'] ∧
      escapeChar '\x0C' = ['\\', 'f'] ∧ escapeChar '\\' = ['\\', '\\'] ∧
      escapeChar '\x27' = ['\\', '\x27'] ∧ escapeChar '\x22' = ['\\', '\x22']) ∧
    (∀ c : Char, c ∉ escapedChars → escapeChar c = [c]) ∧
    (∀ s t : List Char, escape (s ++ t) = escape s ++ escape t) ∧
    (∀ s : List Char, (∀ c ∈ s, c ∉ escapedChars) → escape s = s) :=
  ⟨⟨rfl, rfl, rfl, rfl, rfl, rfl, rfl, rfl⟩,
    escapeChar_of_not_escaped, escape_append, escape_of_not_escaped⟩

/-- Witness for C3 at concrete inputs: the character a is not escaped, and the
string abc (none of whose characters are escape-sensitive) is a fixed point of
`escape`, while a tab-and-backslash string maps to the escape sequences in
order. -/
theorem escape_replaces_escaped_chars_and_fixes_rest_witness :
    escapeChar 'a' = ['a'] ∧ escape ['a', 'b', 'c'] = ['a', 'b', 'c'] ∧
      escape (['a', '\t'] ++ ['\\', 'b']) =
        escape ['a', '\t'] ++ escape ['\\', 'b'] :=
  ⟨escape_replaces_escaped_chars_and_fixes_rest.2.1 'a' (by decide),
    escape_replaces_escaped_chars_and_fixes_rest.2.2.2 ['a', 'b', 'c'] (by decide),
    escape_replaces_escaped_chars_and_fixes_rest.2.2.1 ['a', '\t'] ['\\', 'b']⟩

/-- Claim C10: the escape transform is injective — equal escaped outputs come
from equal inputs, the original text being recoverable by `unescape`. -/
theorem escape_injective (s1 s2 : List Char) (h : escape s1 = escape s2) :
    s1 = s2 := by
  rw [← unescape_escape s1, h, unescape_escape]

/-- Witness for C10 at a concrete input pair. -/
theorem escape_injective_witness : (['a', '\t'] : List Char) = ['a', '\t'] :=
  escape_injective ['a', '\t'] ['a', '\t'] rfl

/-! ## Identifier type (`lib/src/model/named_node.rs`) -/

/-- Characters allowed in an IRI scheme after its leading letter. -/
def isSchemeChar (c : Char) : Bool :=
  c.isAlphanum || c = '+' || c = '-' || c = '.'

/-- Modelled from the spec: validity of an absolute IRI as checked by the
external `oxiri` crate (`Iri::parse`), which is not part of this repository.
The spec summarizes the check as: scheme present, no unescaped control
characters, syntactically valid per the IRI grammar. The model requires a
scheme (a letter followed by letters, digits, plus, minus or dot, then a
colon) and forbids control characters, spaces, angle brackets and the double
quote everywhere. -/
def isValidAbsoluteIri (s : String) : Bool :=
  match s.data.findIdx? (· = ':') with
  | none => false
  | some i =>
    (match s.data.take i with
      | [] => false
      | c :: rest => c.isAlpha && rest.all isSchemeChar) &&
    s.data.all fun c =>
      32 ≤ c.toNat && c.toNat ≠ 127 && c ≠ ' ' && c ≠ '<' && c ≠ '>' && c ≠ '\x22'

/-- Modelled from the spec: `oxiri::Iri::parse` (external crate) validates the
input and `into_inner` returns the input string unchanged on success. -/
def Iri.parse (s : String) : Except String String :=
  if isValidAbsoluteIri s then .ok s else .error ("Invalid IRI: " ++ s)

/-- The validated IRI type of `lib/src/model/named_node.rs` (`NamedNode` /
`NamedNodeBuf`; the borrowed and owned Rust forms share the one invariant and
collapse to a single Lean type). -/
structure NamedNode where
  iri : String
deriving Repr, DecidableEq

/-- `NamedNode::parse`: `Ok(Self::new_unchecked(Iri::parse(iri)?.into_inner()))`. -/
def NamedNode.parse (iri : String) : Except String NamedNode :=
  match Iri.parse iri with
  | .ok s => .ok ⟨s⟩
  | .error e => .error e

/-- `NamedNode::new_unchecked`: wraps the string without validation. -/
def NamedNode.new_unchecked (iri : String) : NamedNode := ⟨iri⟩

/-- Modelled from the spec: the `fmt::Display` implementation delegates to the
external `rio_api` crate, which wraps the IRI in angle brackets (the doc test
in `named_node.rs` fixes this output shape). -/
def NamedNode.display (n : NamedNode) : String := "<" ++ n.iri ++ ">"

/-- Claim C4: for every valid absolute IRI string s, `NamedNode.parse`
succeeds and the display form of the result is s wrapped in angle brackets. -/
theorem namedNode_parse_display (s : String) (h : isValidAbsoluteIri s = true) :
    ∃ n : NamedNode, NamedNode.parse s = .ok n ∧
      n.display = "<" ++ s ++ ">" := by
  refine ⟨⟨s⟩, ?_, rfl⟩
  simp [NamedNode.parse, Iri.parse, h]

/-- Witness for C4 at the concrete IRI from the repository's doc test. -/
theorem namedNode_parse_display_witness :
    isValidAbsoluteIri "http://example.com/foo" = true ∧
      ∃ n : NamedNode, NamedNode.parse "http://example.com/foo" = .ok n ∧
        n.display = "<" ++ "http://example.com/foo" ++ ">" :=
  ⟨by decide, namedNode_parse_display "http://example.com/foo" (by decide)⟩

/-! ## SPARQL protocol layer (`wikibase/src/main.rs`) -/

/-- An `http_types::Error`: a status code plus a message (only the parts of
the error the server code observes). -/
structure HttpError where
  status : Nat
  message : String
deriving Repr, DecidableEq

/-- Status classification of `http_types::StatusCode::is_server_error`. -/
def isServerErrorStatus (n : Nat) : Bool := 500 ≤ n && n ≤ 599

/-- Status classification of `http_types::StatusCode::is_client_error`. -/
def isClientErrorStatus (n : Nat) : Bool := 400 ≤ n && n ≤ 499

/-- A parsed media type: its essence (type and subtype, without parameters)
and its full display form (`http_types::Mime`). -/
structure Mime where
  essence : String
  full : String

/-- HTTP request methods the router distinguishes. -/
inductive Method where
  | Get : Method
  | Post : Method
  | Other : String → Method

/-- Display name of a method, as interpolated into the 404 message. -/
def Method.name : Method → String
  | .Get => "GET"
  | .Post => "POST"
  | .Other s => s

/-- The `Accept` header's negotiation against a supported media-type list
(`http_types::content::Accept::negotiate`, an external collaborator): it
either picks a media type or fails with an HTTP error. -/
def Negotiator : Type := List String → Except HttpError String

/-- An incoming HTTP request, restricted to the fields `handle_request` and
its callees observe. `queryString` is `request.url().query()`, `accept` is
the parsed `Accept` header when present. -/
structure Request where
  path : String
  method : Method
  queryString : Option String
  contentType : Option Mime
  body : String
  accept : Option Negotiator

/-- An outgoing HTTP response. -/
structure Response where
  status : Nat
  headers : List (String × String)
  body : String

/-- Modelled from the spec: the dataset scope of a parsed SPARQL query
(`oxigraph::sparql::Query`, external to the files under verification) — a
list of default-graph identifiers and a list of named-graph identifiers,
mutable after parsing (`dataset_mut`). -/
structure QueryDataset where
  defaultGraph : List String
  availableNamedGraphs : List String
deriving Repr, DecidableEq

/-- Modelled from the spec: a parsed SPARQL query — its text plus the
evaluation scope fields that protocol parameters may override. -/
structure Query where
  text : String
  dataset : QueryDataset
deriving Repr, DecidableEq

/-- Modelled from the spec: `Query::parse` (external SPARQL parser). The
model accepts any non-empty query text and starts with an empty declared
scope; a parse failure carries the parser's message. -/
def Query.parse (s : String) : Except String Query :=
  if s = "" then .error "parse error: empty query" else .ok ⟨s, ⟨[], []⟩⟩

/-- Modelled from the spec: the tagged result of query execution —
graph, solutions, or boolean. -/
inductive QueryResults where
  | graph : List (String × String × String) → QueryResults
  | solutions : List (List (String × String)) → QueryResults
  | boolean : Bool → QueryResults

/-- The store handle, seen through the only operation the gateway performs:
`store.query` (external collaborator; read-only). -/
def Store : Type := Query → Except HttpError QueryResults

/-- Modelled from the spec: `GraphFormat` of the oxigraph `io` module — the
serializations offered for graph-shaped results. -/
inductive GraphFormat where
  | NTriples : GraphFormat
  | Turtle : GraphFormat
  | RdfXml : GraphFormat
deriving Repr, DecidableEq

/-- Modelled from the spec: `GraphFormat::media_type`. -/
def GraphFormat.mediaType : GraphFormat → String
  | .NTriples => "application/n-triples"
  | .Turtle => "text/turtle"
  | .RdfXml => "application/rdf+xml"

/-- Modelled from the spec: `GraphFormat::from_media_type` — recognizes the
canonical media type of each graph serialization. -/
def GraphFormat.fromMediaType (s : String) : Option GraphFormat :=
  if s = "application/n-triples" then some .NTriples
  else if s = "text/turtle" then some .Turtle
  else if s = "application/rdf+xml" then some .RdfXml
  else none

/-- Modelled from the spec: `QueryResultsFormat` — the serializations offered
for solutions- and boolean-shaped results. -/
inductive QueryResultsFormat where
  | Xml : QueryResultsFormat
  | Json : QueryResultsFormat
  | Csv : QueryResultsFormat
  | Tsv : QueryResultsFormat
deriving Repr, DecidableEq

/-- Modelled from the spec: `QueryResultsFormat::media_type`. -/
def QueryResultsFormat.mediaType : QueryResultsFormat → String
  | .Xml => "application/sparql-results+xml"
  | .Json => "application/sparql-results+json"
  | .Csv => "text/csv"
  | .Tsv => "text/tab-separated-values"

/-- Modelled from the spec: `QueryResultsFormat::from_media_type`. -/
def QueryResultsFormat.fromMediaType (s : String) : Option QueryResultsFormat :=
  if s = "application/sparql-results+xml" then some .Xml
  else if s = "application/sparql-results+json" then some .Json
  else if s = "text/csv" then some .Csv
  else if s = "text/tab-separated-values" then some .Tsv
  else none

/-- `content_negotiation` from `wikibase/src/main.rs`: with an `Accept`
header, negotiate against the supported list and parse the chosen media type;
without one, parse the first supported entry (or fail with a 500 if the list
is empty). A chosen media type the `parse` function does not recognize fails
with a 500 "Unknown mime type". -/
def contentNegotiation {F : Type} (request : Request) (supported : List String)
    (parse : String → Option F) : Except HttpError F :=
  let chosen : Except HttpError (Option F) :=
    match request.accept with
    | some negotiate =>
      match negotiate supported with
      | .ok m => .ok (parse m)
      | .error e => .error e
    | none =>
      match supported.head? with
      | some m => .ok (parse m)
      | none => .error ⟨500, "No default MIME type provided"⟩
  match chosen with
  | .error e => .error e
  | .ok none => .error ⟨500, "Unknown mime type"⟩
  | .ok (some f) => .ok f

/-- The supported media-type list built in `evaluate_sparql_query` for
graph-shaped results. -/
def graphSupportedMediaTypes : List String :=
  [GraphFormat.NTriples.mediaType, GraphFormat.Turtle.mediaType,
    GraphFormat.RdfXml.mediaType]

/-- The supported media-type list built in `evaluate_sparql_query` for
solutions- and boolean-shaped results. -/
def resultsSupportedMediaTypes : List String :=
  [QueryResultsFormat.Xml.mediaType, QueryResultsFormat.Json.mediaType,
    QueryResultsFormat.Csv.mediaType, QueryResultsFormat.Tsv.mediaType]

/-- Validation of the supplied graph-scope IRIs in `evaluate_sparql_query`:
`uris.into_iter().map(|e| Ok(NamedNode::new(e)?.into())).collect::<Result<Vec<_>>>()`,
each IRI checked by the identifier type. -/
def validateGraphUris (uris : List String) : Except String (List String) :=
  uris.mapM fun e => (NamedNode.parse e).map NamedNode.iri

/-- Lines 205–210 of `wikibase/src/main.rs`: if either supplied scope list is
non-empty, overwrite the query's default dataset and available named graphs
with the supplied lists; otherwise leave the query untouched. -/
def applyDatasetScope (query : Query) (defaultGraphUris namedGraphUris : List String) :
    Query :=
  if !defaultGraphUris.isEmpty || !namedGraphUris.isEmpty then
    { query with dataset := ⟨defaultGraphUris, namedGraphUris⟩ }
  else query

/-- Modelled from the spec: serialization of a graph result
(`QueryResults::write_graph`, external collaborator; its output bytes are out
of scope, only the negotiated format and content type matter here). -/
def writeGraph (_results : QueryResults) (format : GraphFormat) : String :=
  "graph serialized as " ++ format.mediaType

/-- Modelled from the spec: serialization of a solutions or boolean result
(`QueryResults::write`, external collaborator). -/
def writeResults (_results : QueryResults) (format : QueryResultsFormat) : String :=
  "results serialized as " ++ format.mediaType

/-- `evaluate_sparql_query` from `wikibase/src/main.rs`: parse the query
text (parse errors become 400), validate the scope IRIs (invalid IRIs become
400), apply the dataset scope, execute against the store, then negotiate and
serialize by result shape. -/
def evaluateSparqlQuery (store : Store) (queryStr : String)
    (defaultGraphUris namedGraphUris : List String) (request : Request) :
    Except HttpError Response :=
  match Query.parse queryStr with
  | .error msg => .error ⟨400, msg⟩
  | .ok query =>
    match validateGraphUris defaultGraphUris with
    | .error msg => .error ⟨400, msg⟩
    | .ok dgs =>
      match validateGraphUris namedGraphUris with
      | .error msg => .error ⟨400, msg⟩
      | .ok ngs =>
        let query := applyDatasetScope query dgs ngs
        match store query with
        | .error e => .error e
        | .ok results =>
          match results with
          | .graph _ =>
            match contentNegotiation request graphSupportedMediaTypes
                GraphFormat.fromMediaType with
            | .error e => .error e
            | .ok format =>
              .ok ⟨200, [("Content-Type", format.mediaType)],
                writeGraph results format⟩
          | _ =>
            match contentNegotiation request resultsSupportedMediaTypes
                QueryResultsFormat.fromMediaType with
            | .error e => .error e
            | .ok format =>
              .ok ⟨200, [("Content-Type", format.mediaType)],
                writeResults results format⟩

/-- The parameter loop of `configure_and_evaluate_sparql_query` (lines
164–183): fold over the decoded key/value pairs, with at most one "query"
value (a second one is a 400), accumulating the two graph-scope lists in
arrival order, ignoring unknown keys; a missing query text is a 400. -/
def configureQueryParams :
    List (String × String) → Option String → List String → List String →
      Except HttpError (String × List String × List String)
  | [], query, dgUris, ngUris =>
    match query with
    | some q => .ok (q, dgUris, ngUris)
    | none => .error ⟨400, "You should set the \x27query\x27 parameter"⟩
  | (k, v) :: rest, query, dgUris, ngUris =>
    if k = "query" then
      match query with
      | some _ => .error ⟨400, "Multiple query parameters provided"⟩
      | none => configureQueryParams rest (some v) dgUris ngUris
    else if k = "default-graph-uri" then
      configureQueryParams rest query (dgUris ++ [v]) ngUris
    else if k = "named-graph-uri" then
      configureQueryParams rest query dgUris (ngUris ++ [v])
    else
      configureQueryParams rest query dgUris ngUris

/-- Modelled from the spec: `form_urlencoded::parse` of the external url
crate — splits the input on ampersands into key=value pairs, skipping empty
segments; percent-decoding is not modelled. -/
def formUrlencodedParse (s : String) : List (String × String) :=
  (s.splitOn "&").filterMap fun kv =>
    if kv = "" then none
    else
      match kv.splitOn "=" with
      | [] => none
      | k :: rest => some (k, String.intercalate "=" rest)

/-- `configure_and_evaluate_sparql_query` from `wikibase/src/main.rs`. -/
def configureAndEvaluateSparqlQuery (store : Store) (encoded : String)
    (query : Option String) (request : Request) : Except HttpError Response :=
  match configureQueryParams (formUrlencodedParse encoded) query [] [] with
  | .error e => .error e
  | .ok (q, dgUris, ngUris) =>
    evaluateSparqlQuery store q dgUris ngUris request

/-- `MAX_SPARQL_BODY_SIZE`: the hard cap on request-body reads. -/
def maxSparqlBodySize : Nat := 1048576

/-- The capped body read `take_body().take(MAX_SPARQL_BODY_SIZE)` (the byte
cap is modelled as a character cap). -/
def readCappedBody (s : String) : String := ⟨s.data.take maxSparqlBodySize⟩

/-- `url_query`: the URL's query component, or empty when absent. -/
def urlQuery (request : Request) : String := request.queryString.getD ""

/-- `handle_request` from `wikibase/src/main.rs`: the routing table. Only
`/query` under GET and POST is recognized; POST requires a content type of
`application/sparql-query` (body is the query) or
`application/x-www-form-urlencoded` (body carries the parameters). -/
def handleRequest (store : Store) (request : Request) : Except HttpError Response :=
  match request.path, request.method with
  | "/query", .Get =>
    configureAndEvaluateSparqlQuery store (urlQuery request) none request
  | "/query", .Post =>
    (match request.contentType with
      | some contentType =>
        if contentType.essence = "application/sparql-query" then
          configureAndEvaluateSparqlQuery store (urlQuery request)
            (some (readCappedBody request.body)) request
        else if contentType.essence = "application/x-www-form-urlencoded" then
          configureAndEvaluateSparqlQuery store (readCappedBody request.body)
            none request
        else
          .error ⟨415, "Not supported Content-Type given: " ++ contentType.full⟩
      | none => .error ⟨400, "No Content-Type given"⟩)
  | _, _ =>
    .error ⟨404, request.method.name ++ " " ++ request.path ++
      " is not supported by this server"⟩

/-- `CARGO_PKG_VERSION`: the crate version baked into the server header at
build time (its exact value is irrelevant to the claims). -/
def cargoPkgVersion : String := "0.1.0"

/-- The `SERVER` constant: `concat!("Oxigraph/", env!("CARGO_PKG_VERSION"))`. -/
def SERVER : String := "Oxigraph/" ++ cargoPkgVersion

/-- The response construction inside `http_server::accept`: a handler error
becomes a response with the error's status and message as body, and every
response gets the server-identity header appended before being written. -/
def acceptResponse (handleResult : Except HttpError Response) : Response :=
  let response :=
    match handleResult with
    | .ok result => result
    | .error error => ⟨error.status, [], error.message⟩
  { response with headers := response.headers ++ [("Server", SERVER)] }

/-- Claim C1: if either supplied scope list is non-empty, the query's default
dataset and available named graphs are both overwritten with the supplied
lists; if both are empty, the query's own declared scope is left untouched. -/
theorem datasetScope_overridden_iff_supplied (query : Query)
    (dgUris ngUris : List String) :
    ((dgUris ≠ [] ∨ ngUris ≠ []) →
      (applyDatasetScope query dgUris ngUris).dataset = ⟨dgUris, ngUris⟩) ∧
    (dgUris = [] → ngUris = [] → applyDatasetScope query dgUris ngUris = query) := by
  constructor
  · intro h
    have hne : (!dgUris.isEmpty || !ngUris.isEmpty) = true := by
      rcases h with h | h <;> simp [List.isEmpty_iff, h]
    simp [applyDatasetScope, hne]
  · intro h1 h2
    subst h1; subst h2
    simp [applyDatasetScope]

/-- Witness for C1 at concrete inputs: a supplied default-graph list
overwrites the scope, and empty lists leave the query untouched. -/
theorem datasetScope_overridden_iff_supplied_witness :
    (applyDatasetScope ⟨"ASK { ?s ?p ?o }", ⟨["http://d"], ["http://n"]⟩⟩
        ["http://g1"] []).dataset = ⟨["http://g1"], []⟩ ∧
    applyDatasetScope ⟨"ASK { ?s ?p ?o }", ⟨["http://d"], ["http://n"]⟩⟩ [] [] =
      ⟨"ASK { ?s ?p ?o }", ⟨["http://d"], ["http://n"]⟩⟩ :=
  ⟨(datasetScope_overridden_iff_supplied ⟨"ASK { ?s ?p ?o }",
      ⟨["http://d"], ["http://n"]⟩⟩ ["http://g1"] []).1 (.inl (by decide)),
    (datasetScope_overridden_iff_supplied ⟨"ASK { ?s ?p ?o }",
      ⟨["http://d"], ["http://n"]⟩⟩ [] []).2 rfl rfl⟩

/-- Claim C5: without an `Accept` header, content negotiation picks the first
entry of the supported list for the result's shape — N-Triples for graph
results and XML for solutions or boolean results. -/
theorem negotiation_defaults_to_first_supported (request : Request)
    (h : request.accept = none) :
    contentNegotiation request graphSupportedMediaTypes GraphFormat.fromMediaType =
        .ok GraphFormat.NTriples ∧
    contentNegotiation request resultsSupportedMediaTypes
        QueryResultsFormat.fromMediaType = .ok QueryResultsFormat.Xml := by
  constructor <;>
    simp [contentNegotiation, h, graphSupportedMediaTypes,
      resultsSupportedMediaTypes, GraphFormat.fromMediaType,
      QueryResultsFormat.fromMediaType, GraphFormat.mediaType,
      QueryResultsFormat.mediaType]

/-- Witness for C5 at a concrete request without an `Accept` header. -/
theorem negotiation_defaults_to_first_supported_witness :
    contentNegotiation ⟨"/query", .Get, none, none, "", none⟩
        graphSupportedMediaTypes GraphFormat.fromMediaType =
        .ok GraphFormat.NTriples ∧
    contentNegotiation ⟨"/query", .Get, none, none, "", none⟩
        resultsSupportedMediaTypes QueryResultsFormat.fromMediaType =
        .ok QueryResultsFormat.Xml :=
  negotiation_defaults_to_first_supported ⟨"/query", .Get, none, none, "", none⟩ rfl

/-- Claim C6: with an `Accept` header present, negotiation runs against the
supported list, and a negotiated media type the format table does not parse
fails with the 500 "Unknown mime type" error — a server error, not a client
error. -/
theorem negotiation_unknown_mime_is_server_error {F : Type} (request : Request)
    (supported : List String) (parse : String → Option F)
    (negotiate : Negotiator) (m : String) (hacc : request.accept = some negotiate)
    (hneg : negotiate supported = .ok m) (hparse : parse m = none) :
    contentNegotiation request supported parse = .error ⟨500, "Unknown mime type"⟩ ∧
      isServerErrorStatus 500 = true ∧ isClientErrorStatus 500 = false := by
  refine ⟨?_, by decide, by decide⟩
  simp [contentNegotiation, hacc, hneg, hparse]

/-- Witness for C6: a negotiator that picks a media type outside the graph
format table makes negotiation fail with the 500 "Unknown mime type" error. -/
theorem negotiation_unknown_mime_is_server_error_witness :
    contentNegotiation
        ⟨"/query", .Get, none, none, "", some fun _ => .ok "application/pdf"⟩
        graphSupportedMediaTypes GraphFormat.fromMediaType =
        .error ⟨500, "Unknown mime type"⟩ ∧
      isServerErrorStatus 500 = true ∧ isClientErrorStatus 500 = false :=
  negotiation_unknown_mime_is_server_error
    ⟨"/query", .Get, none, none, "", some fun _ => .ok "application/pdf"⟩
    graphSupportedMediaTypes GraphFormat.fromMediaType
    (fun _ => .ok "application/pdf") "application/pdf" rfl rfl (by decide)

/-- Claim C7: a POST to /query without a `Content-Type` header yields a 400,
and one with a content type other than `application/sparql-query` or
`application/x-www-form-urlencoded` yields a 415 whose message names the
offending content type. -/
theorem post_content_type_errors (store : Store) (request : Request)
    (hpath : request.path = "/query") (hmethod : request.method = .Post) :
    (request.contentType = none →
      handleRequest store request = .error ⟨400, "No Content-Type given"⟩) ∧
    (∀ ct : Mime, request.contentType = some ct →
      ct.essence ≠ "application/sparql-query" →
      ct.essence ≠ "application/x-www-form-urlencoded" →
      handleRequest store request =
        .error ⟨415, "Not supported Content-Type given: " ++ ct.full⟩) := by
  obtain ⟨path, method, qs, ct, body, acc⟩ := request
  simp only at hpath hmethod
  subst hpath; subst hmethod
  constructor
  · intro hct
    simp only at hct
    subst hct
    simp [handleRequest]
  · intro m hct h1 h2
    simp only at hct
    subst hct
    simp [handleRequest, h1, h2]

/-- Witness for C7 at concrete requests: one POST without a content type, one
POST with content type text/plain. -/
theorem post_content_type_errors_witness :
    handleRequest (fun _ => .error ⟨500, "store unavailable"⟩)
        ⟨"/query", .Post, none, none, "ASK { ?s ?p ?o }", none⟩ =
      .error ⟨400, "No Content-Type given"⟩ ∧
    handleRequest (fun _ => .error ⟨500, "store unavailable"⟩)
        ⟨"/query", .Post, none, some ⟨"text/plain", "text/plain;charset=utf-8"⟩,
          "ASK { ?s ?p ?o }", none⟩ =
      .error ⟨415, "Not supported Content-Type given: " ++ "text/plain;charset=utf-8"⟩ :=
  ⟨(post_content_type_errors (fun _ => .error ⟨500, "store unavailable"⟩)
      ⟨"/query", .Post, none, none, "ASK { ?s ?p ?o }", none⟩ rfl rfl).1 rfl,
    (post_content_type_errors (fun _ => .error ⟨500, "store unavailable"⟩)
      ⟨"/query", .Post, none, some ⟨"text/plain", "text/plain;charset=utf-8"⟩,
        "ASK { ?s ?p ?o }", none⟩ rfl rfl).2
      ⟨"text/plain", "text/plain;charset=utf-8"⟩ rfl (by decide) (by decide)⟩

/-- Claim C9: every response written back — whether from a successful handler
or from translation of a handler error — carries the fixed server-identity
header, appended before being written. -/
theorem responses_carry_server_header (handleResult : Except HttpError Response) :
    ("Server", SERVER) ∈ (acceptResponse handleResult).headers := by
  cases handleResult <;> simp [acceptResponse]

/-- Number of query-text values present across the request's body (the
`query` argument already holding a value counts as one) and the decoded
parameter pairs. -/
def queryValueCount (pairs : List (String × String)) (query : Option String) : Nat :=
  (if query.isSome then 1 else 0) + pairs.countP fun kv => decide (kv.1 = "query")

theorem configureQueryParams_cases (pairs : List (String × String))
    (query : Option String) (dgUris ngUris : List String) :
    (queryValueCount pairs query = 0 →
      configureQueryParams pairs query dgUris ngUris =
        .error ⟨400, "You should set the \x27query\x27 parameter"⟩) ∧
    (queryValueCount pairs query = 1 →
      ∃ r, configureQueryParams pairs query dgUris ngUris = .ok r) ∧
    (2 ≤ queryValueCount pairs query →
      configureQueryParams pairs query dgUris ngUris =
        .error ⟨400, "Multiple query parameters provided"⟩) := by
  induction pairs generalizing query dgUris ngUris with
  | nil =>
    cases query with
    | none =>
      refine ⟨fun _ => rfl, fun h => ?_, fun h => ?_⟩ <;>
        simp [queryValueCount] at h
    | some q =>
      refine ⟨fun h => ?_, fun _ => ⟨(q, dgUris, ngUris), rfl⟩, fun h => ?_⟩ <;>
        simp [queryValueCount] at h
  | cons kv rest ih =>
    obtain ⟨k, v⟩ := kv
    by_cases hk : k = "query"
    · cases query with
      | some q =>
        have hge : 2 ≤ queryValueCount ((k, v) :: rest) (some q) := by
          simp [queryValueCount, List.countP_cons, hk]
          omega
        refine ⟨fun h => by omega, fun h => by omega, fun _ => ?_⟩
        simp [configureQueryParams, hk]
      | none =>
        have hcount : queryValueCount ((k, v) :: rest) none =
            queryValueCount rest (some v) := by
          simp [queryValueCount, List.countP_cons, hk]
          omega
        have hstep : configureQueryParams ((k, v) :: rest) none dgUris ngUris =
            configureQueryParams rest (some v) dgUris ngUris := by
          simp [configureQueryParams, hk]
        rw [hcount, hstep]
        exact ih (some v) dgUris ngUris
    · have hcount : queryValueCount ((k, v) :: rest) query =
          queryValueCount rest query := by
        simp [queryValueCount, List.countP_cons, hk]
      by_cases h2 : k = "default-graph-uri"
      · have hstep : configureQueryParams ((k, v) :: rest) query dgUris ngUris =
            configureQueryParams rest query (dgUris ++ [v]) ngUris := by
          simp [configureQueryParams, hk, h2]
        rw [hcount, hstep]
        exact ih query (dgUris ++ [v]) ngUris
      · by_cases h3 : k = "named-graph-uri"
        · have hstep : configureQueryParams ((k, v) :: rest) query dgUris ngUris =
              configureQueryParams rest query dgUris (ngUris ++ [v]) := by
            simp [configureQueryParams, hk, h2, h3]
          rw [hcount, hstep]
          exact ih query dgUris (ngUris ++ [v])
        · have hstep : configureQueryParams ((k, v) :: rest) query dgUris ngUris =
              configureQueryParams rest query dgUris ngUris := by
            simp [configureQueryParams, hk, h2, h3]
          rw [hcount, hstep]
          exact ih query dgUris ngUris

/-- Claim C2: extraction yields a query text exactly when one query-text
value is present across the request's body and parameters; a second
occurrence fails with the 400 "Multiple query parameters provided", and
absence of any query value fails with a 400. -/
theorem query_extraction_exactly_one (pairs : List (String × String))
    (query0 : Option String) (dgUris ngUris : List String) :
    ((∃ r, configureQueryParams pairs query0 dgUris ngUris = .ok r) ↔
      queryValueCount pairs query0 = 1) ∧
    (2 ≤ queryValueCount pairs query0 →
      configureQueryParams pairs query0 dgUris ngUris =
        .error ⟨400, "Multiple query parameters provided"⟩) ∧
    (queryValueCount pairs query0 = 0 →
      configureQueryParams pairs query0 dgUris ngUris =
          .error ⟨400, "You should set the \x27query\x27 parameter"⟩ ∧
        isClientErrorStatus 400 = true) := by
  obtain ⟨hzero, hone, hmulti⟩ := configureQueryParams_cases pairs query0 dgUris ngUris
  refine ⟨⟨fun hok => ?_, hone⟩, hmulti, fun h => ⟨hzero h, by decide⟩⟩
  by_contra hne
  have : queryValueCount pairs query0 = 0 ∨ 2 ≤ queryValueCount pairs query0 := by
    omega
  obtain ⟨r, hr⟩ := hok
  rcases this with h | h
  · rw [hzero h] at hr
    exact Except.noConfusion hr
  · rw [hmulti h] at hr
    exact Except.noConfusion hr

/-- Witness for C2 at concrete inputs: two query parameters fail with the
"multiple" error, a single one succeeds, and none fails. -/
theorem query_extraction_exactly_one_witness :
    configureQueryParams [("query", "ASK1"), ("query", "ASK2")] none [] [] =
        .error ⟨400, "Multiple query parameters provided"⟩ ∧
      (∃ r, configureQueryParams [("query", "ASK1")] none [] [] = .ok r) ∧
      configureQueryParams ([] : List (String × String)) none [] [] =
        .error ⟨400, "You should set the \x27query\x27 parameter"⟩ :=
  ⟨(query_extraction_exactly_one [("query", "ASK1"), ("query", "ASK2")]
      none [] []).2.1 (by decide),
    (query_extraction_exactly_one [("query", "ASK1")] none [] []).1.mpr (by decide),
    ((query_extraction_exactly_one [] none [] []).2.2 (by decide)).1⟩

end Oxigraph
